import Mathlib

/-!
Verification of `src/net.py` (recurrent graph neural network).

Shallow embedding conventions:
* Tensors of floats are embedded as `List (List ℚ)` (exact rationals stand in
  for floating point; every claim only involves exact small-integer values).
* `nn.Linear` is a weight matrix of shape (out, in) plus a bias vector
  (the source constructs both `nn.Linear`s with the default `bias=True`,
  ignoring its own `node_feature_bias` / `node_embedding_bias` arguments);
  application is `v ↦ W·v + b`, mapped over the rows of a matrix.
* Python exceptions are embedded as `Except PyError`.
* Looking up an attribute that a `torch.nn.Module` does not define raises
  `AttributeError` (`nn.Module.__getattr__`); assigning a sub-`Module`
  attribute on an object whose `Module.__init__` has not run raises
  `AttributeError` (`torch.nn.Module.__setattr__` checks the `_modules`
  dict that only `Module.__init__` creates).
-/

/-- A dense 2-D float tensor: a list of rows. -/
abbrev Mat := List (List ℚ)

/-- Dot product of two vectors (`zipWith` mirrors how a fixed common
    dimension is consumed; all uses are at matching lengths). -/
def dot (a b : List ℚ) : ℚ := (List.zipWith (· * ·) a b).sum

/-- Elementwise vector addition. -/
def vecAdd (a b : List ℚ) : List ℚ := List.zipWith (· + ·) a b

/-- Second dimension of a (rectangular) tensor: the length of its rows,
    `x.size(1)` in torch. -/
def Mat.width (x : Mat) : ℕ := (x.headD []).length

/-- Embedding of `torch.nn.Linear(in_features, out_features)`:
    `weight` has shape (out, in), `bias` has length out. -/
structure Linear where
  weight : List (List ℚ)
  bias : List ℚ

/-- Forward of `nn.Linear` on one row: `W·v + b`. -/
def Linear.apply (L : Linear) (v : List ℚ) : List ℚ :=
  vecAdd (L.weight.map (fun r => dot r v)) L.bias

/-- Forward of `nn.Linear` on a 2-D input: applied to every row. -/
def Linear.applyMat (L : Linear) (x : Mat) : Mat := x.map L.apply

/-- Python exceptions the embedded code can raise.  `configurationError`
    never occurs in `src/net.py`; it is the error class named by the spec's
    error taxonomy and is included so that statements about it can be made. -/
inductive PyError where
  | attributeError : String → PyError
  | typeError : String → PyError
  | configurationError : String → PyError
deriving DecidableEq

/-- One output row of a sum-scatter: the sum of all values whose index
    equals `t`, starting from the zero vector of length `width`. -/
def scatterRow (pairs : List (ℕ × List ℚ)) (width t : ℕ) : List ℚ :=
  (pairs.filter (fun pr => pr.1 == t)).foldl (fun acc pr => vecAdd acc pr.2)
    (List.replicate width 0)

/-- Embedding of `torch_scatter.scatter(inputs, index, dim=0, dim_size,
    reduce="sum")` on a 2-D `inputs` tensor scattered along dimension 0
    (the repository always uses the default `node_dim = 0`):
    `out[t] = Σ over positions i with index[i] = t of inputs[i]`, and the
    zero vector of length `width` (torch reads it off as `inputs.size(1)`,
    which list-of-rows data cannot supply for an empty `inputs`, hence the
    explicit argument) where no position hits `t`. -/
def scatter (inputs : Mat) (index : List ℕ) (dim_size width : ℕ) : Mat :=
  (List.range dim_size).map (scatterRow (index.zip inputs) width)

/-- Embedding of `GeneralGraphLayer`'s state after `__init__`: the two
    `nn.Linear` sub-modules `phi` and `W`, the configured nonlinearity
    (elementwise, `F.relu` by default), and `node_dim`.  The constructor
    accepts `node_feature_bias` and `node_embedding_bias` but never stores
    them, so they are not part of the state.  Note the layer has no
    attribute named `U`. -/
structure GeneralGraphLayer where
  phi : Linear
  W : Linear
  activation_fn : ℚ → ℚ
  node_dim : ℕ

/-- Method `GeneralGraphLayer.message`: `return x_j` (identity message), per row. -/
def GeneralGraphLayer.message (x_j : List ℚ) : List ℚ := x_j

/-- Method `GeneralGraphLayer.aggregate`: sum-scatter of the per-edge messages over
    the target index, embodied for the `node_dim = 0` layout the repository
    uses (2-D inputs whose dimension 0 indexes edges/nodes). -/
def GeneralGraphLayer.aggregate (_self : GeneralGraphLayer) (inputs : Mat)
    (index : List ℕ) (dim_size width : ℕ) : Mat :=
  scatter inputs index dim_size width

/-- Embedding of the inherited `MessagePassing.propagate(edge_index, x=(x,x))`
    as specialized by this layer: gather `x_j = x[source]` for every edge,
    apply `message` (identity), then `aggregate` with the target indices,
    `dim_size` equal to the number of nodes (`x.size(0)`), and the message
    width (`x.size(1)`).  In-range edge indices are assumed (torch raises on
    out-of-range gathers; every theorem below restricts to in-range edges). -/
def GeneralGraphLayer.propagate (self : GeneralGraphLayer)
    (edge_index : List (ℕ × ℕ)) (x : Mat) : Mat :=
  self.aggregate ((edge_index.map (fun e => x.getD e.1 [])).map
      GeneralGraphLayer.message)
    (edge_index.map Prod.snd) x.length x.width

/-- Method `GeneralGraphLayer.forward`: computes `x = self.W(x)`, then
    `x = self.propagate(edge_index, x=(x,x))`, then evaluates
    `x + self.U(u)` — but the layer defines no attribute `U` (its
    node-feature map is named `phi`), so `nn.Module.__getattr__` raises
    `AttributeError` at that point and the remaining statements
    (`self.activation_fn`, the return) are never reached. -/
def GeneralGraphLayer.forward (self : GeneralGraphLayer) (x u : Mat)
    (edge_index : List (ℕ × ℕ)) : Except PyError Mat :=
  let x1 := self.W.applyMat x
  let x2 := self.propagate edge_index x1
  Except.error (PyError.attributeError ("U"))

/-- Method `GeneralGraphLayer.reset_parameters`: its first statement is
    `nn.init.kaiming_uniform_(self.phi.weights)`, but `nn.Linear` defines a
    parameter named `weight`, not `weights`, so the attribute lookup raises
    `AttributeError` before any parameter is touched (the subsequent reads
    of the never-assigned `self.node_feature_bias` / `self.node_embedding_bias`
    would likewise raise). -/
def GeneralGraphLayer.reset_parameters (_self : GeneralGraphLayer) :
    Except PyError GeneralGraphLayer :=
  Except.error (PyError.attributeError ("weights"))

/-- Embedding of `RecurrentGraphNeuralNet`'s state: the owned
    `GeneralGraphLayer` and the `nn.Linear` prediction head.  (No such state
    is ever successfully created by the constructor, see
    `RecurrentGraphNeuralNet.init`; the methods are embedded as functions of
    this hypothetical state.) -/
structure RecurrentGraphNeuralNet where
  graph_layer : GeneralGraphLayer
  prediction_head : Linear

/-- Method `RecurrentGraphNeuralNet.forward`: `x = self.graph_layer(x, u, edge_index)`
    then `y = self.prediction_head(x)` (a plain linear map, no activation),
    returning the pair `(x, y)`.  Any exception from the layer propagates
    unchanged. -/
def RecurrentGraphNeuralNet.forward (self : RecurrentGraphNeuralNet)
    (x u : Mat) (edge_index : List (ℕ × ℕ)) : Except PyError (Mat × Mat) :=
  match self.graph_layer.forward x u edge_index with
  | Except.error e => Except.error e
  | Except.ok x1 => Except.ok (x1, self.prediction_head.applyMat x1)

/-- State-threaded form of `RecurrentGraphNeuralNet.forward`.  The method
    body only binds the locals `x` and `y` and reads `self.graph_layer` and
    `self.prediction_head`; neither it nor the layer body it calls contains
    an attribute assignment or an in-place tensor operation (the layer reads
    `self.W`, calls `self.propagate`, and fails looking up the absent
    attribute `U`).  The owned parameter state after the call is therefore
    the state before it, which this form records by returning the state
    alongside the result. -/
def RecurrentGraphNeuralNet.forwardS (self : RecurrentGraphNeuralNet)
    (x u : Mat) (edge_index : List (ℕ × ℕ)) :
    RecurrentGraphNeuralNet × Except PyError (Mat × Mat) :=
  (self, self.forward x u edge_index)

/-- Embedding of `RecurrentGraphNeuralNet.__init__(node_channels,
    hidden_channels, prediction_channels, **kwargs)`.  `kw_out_channels`
    models an `out_channels` entry of `**kwargs` (the only way a caller can
    request a layer output width, since the body hardwires
    `out_channels = hidden_channels`):
    * if present, the call `GeneralGraphLayer(..., out_channels =
      hidden_channels, ..., **kwargs)` raises `TypeError` (two values for
      the keyword argument `out_channels`) before the layer body runs;
    * otherwise the layer is built (its `__init__` does call
      `super().__init__`), but the very first statement
      `self.graph_layer = ...` raises `AttributeError`, because
      `RecurrentGraphNeuralNet.__init__` never invoked
      `torch.nn.Module.__init__` and `Module.__setattr__` refuses to attach
      a sub-module before it.
    Either way no instance is ever returned. -/
def RecurrentGraphNeuralNet.init (node_channels hidden_channels
    prediction_channels : ℕ) (kw_out_channels : Option ℕ) :
    Except PyError RecurrentGraphNeuralNet :=
  match kw_out_channels with
  | some _ => Except.error
      (PyError.typeError ("multiple values for keyword argument out_channels"))
  | none => Except.error
      (PyError.attributeError ("cannot assign module before Module init call"))

/-- A DeepSnap batch: the three named fields the adapter reads. -/
structure Batch where
  node_embedding : Mat
  node_feature : Mat
  edge_index : List (ℕ × ℕ)

/-- Embedding of `DeepSnapWrapper`'s state: the wrapped model, any callable
    with signature `model(x, u, edge_index)` per the constructor docstring.
    (As with the model, no such state is ever successfully created, see
    `DeepSnapWrapper.init`.) -/
structure DeepSnapWrapper where
  model : Mat → Mat → List (ℕ × ℕ) → Except PyError (Mat × Mat)

/-- Method `DeepSnapWrapper.forward`: reads `batch.node_embedding`,
    `batch.node_feature`, `batch.edge_index` and forwards them to the
    wrapped model. -/
def DeepSnapWrapper.forward (self : DeepSnapWrapper) (batch : Batch) :
    Except PyError (Mat × Mat) :=
  let x := batch.node_embedding
  let u := batch.node_feature
  let edge_index := batch.edge_index
  self.model x u edge_index

/-- Embedding of `DeepSnapWrapper.__init__(model)`: its only statement
    `self.model = model` assigns the wrapped `torch.nn.Module` without
    `torch.nn.Module.__init__` ever having been invoked on `self`, so
    `Module.__setattr__` raises `AttributeError` and no instance is
    returned. -/
def DeepSnapWrapper.init
    (_model : Mat → Mat → List (ℕ × ℕ) → Except PyError (Mat × Mat)) :
    Except PyError DeepSnapWrapper :=
  Except.error
    (PyError.attributeError ("cannot assign module before Module init call"))

/-- Spec-side description of the Batch Adapter, written from the spec's
    words: `step(batch)` purely extracts the three named fields and calls
    the wrapped model directly on them. -/
def adapterStepSpec
    (model : Mat → Mat → List (ℕ × ℕ) → Except PyError (Mat × Mat))
    (batch : Batch) : Except PyError (Mat × Mat) :=
  model batch.node_embedding batch.node_feature batch.edge_index

/-- Whether a call outcome is a raised `ConfigurationError`. -/
def raisesConfigurationError {α : Type} : Except PyError α → Bool
  | Except.error (PyError.configurationError _) => true
  | _ => false

/-! Helper lemmas about the sum-scatter. -/

lemma vecAdd_right_comm (a b c : List ℚ) :
    vecAdd (vecAdd a b) c = vecAdd (vecAdd a c) b := by
  induction a generalizing b c with
  | nil => simp [vecAdd]
  | cons x xs ih =>
    cases b with
    | nil => simp [vecAdd]
    | cons y ys =>
      cases c with
      | nil => simp [vecAdd]
      | cons z zs =>
        simp only [vecAdd, List.zipWith_cons_cons, List.cons.injEq] at *
        exact ⟨by ring, ih ys zs⟩

lemma foldl_vecAdd_perm {l₁ l₂ : List (ℕ × List ℚ)} (h : l₁.Perm l₂) :
    ∀ b, l₁.foldl (fun acc pr => vecAdd acc pr.2) b =
      l₂.foldl (fun acc pr => vecAdd acc pr.2) b := by
  induction h with
  | nil => intro b; rfl
  | cons x _h ih => intro b; simp only [List.foldl_cons]; exact ih _
  | swap x y l =>
    intro b
    simp only [List.foldl_cons]
    rw [vecAdd_right_comm]
  | trans _h₁ _h₂ ih₁ ih₂ => intro b; rw [ih₁ b, ih₂ b]

lemma foldl_vecAdd_length {C : ℕ} :
    ∀ (l : List (ℕ × List ℚ)) (b : List ℚ), b.length = C →
      (∀ pr ∈ l, pr.2.length = C) →
      (l.foldl (fun acc pr => vecAdd acc pr.2) b).length = C := by
  intro l
  induction l with
  | nil => intro b hb _; exact hb
  | cons p ps ih =>
    intro b hb hl
    simp only [List.foldl_cons]
    apply ih
    · simp [vecAdd, List.length_zipWith, hb, hl p (by simp)]
    · intro pr hpr
      exact hl pr (List.mem_cons_of_mem _ hpr)

lemma scatterRow_length {C : ℕ} (pairs : List (ℕ × List ℚ)) (t : ℕ)
    (h : ∀ pr ∈ pairs, pr.2.length = C) : (scatterRow pairs C t).length = C :=
  foldl_vecAdd_length _ _ (by simp)
    (fun pr hpr => h pr (List.mem_of_mem_filter hpr))

lemma scatterRow_perm {p₁ p₂ : List (ℕ × List ℚ)} (h : p₁.Perm p₂)
    (width t : ℕ) : scatterRow p₁ width t = scatterRow p₂ width t :=
  foldl_vecAdd_perm (h.filter _) _

/-! The claims. -/

/-- Concrete layer of the end-to-end scenario: hidden_dim = 2,
    node_feature_dim = 2, out_channels = 2, `W` and `phi` the 2×2 identity
    with zero bias, identity nonlinearity, node_dim = 0. -/
def scenario_layer : GeneralGraphLayer :=
  ⟨⟨[[1, 0], [0, 1]], [0, 0]⟩, ⟨[[1, 0], [0, 1]], [0, 0]⟩, id, 0⟩

/-- C1: on the 3-node scenario (edges (0,1) and (1,2), identity `W` and
    `phi`, zero bias, identity nonlinearity), the layer's step does NOT
    return [[0,0],[1,0],[0,1]]: it raises `AttributeError` at the fusion
    statement `x + self.U(u)`, the layer having no attribute `U`.  The
    message/aggregation stage computed just before that statement does
    equal [[0,0],[1,0],[0,1]], exactly the value the claim expects the step
    to return. -/
theorem scenario_step_raises_instead_of_returning :
    scenario_layer.forward [[1, 0], [0, 1], [1, 1]]
        [[0, 0], [0, 0], [0, 0]] [(0, 1), (1, 2)] =
      Except.error (PyError.attributeError ("U")) ∧
    scenario_layer.propagate [(0, 1), (1, 2)]
        (scenario_layer.W.applyMat [[1, 0], [0, 1], [1, 1]]) =
      [[0, 0], [1, 0], [0, 1]] := by
  constructor
  · rfl
  · norm_num [scenario_layer, GeneralGraphLayer.propagate,
      GeneralGraphLayer.aggregate, scatter, scatterRow,
      GeneralGraphLayer.message, Linear.applyMat, Linear.apply, vecAdd, dot,
      Mat.width, List.range_succ, List.replicate, List.zipWith]

/-- C2: for every layer state and in-range input, the step never reaches the
    fusion `aggregated + φ(u)` nor the nonlinearity: the source spells the
    fusion `x + self.U(u)` and the layer defines `phi`, not `U`, so the call
    raises `AttributeError` instead. -/
theorem forward_fusion_raises_attributeError (self : GeneralGraphLayer)
    (x u : Mat) (edge_index : List (ℕ × ℕ))
    (hE : ∀ e ∈ edge_index, e.1 < x.length ∧ e.2 < x.length) :
    self.forward x u edge_index = Except.error (PyError.attributeError ("U")) :=
  rfl

/-- Witness for C2 at a concrete in-range input. -/
theorem forward_fusion_raises_attributeError_witness :
    (∀ e ∈ ([(0, 0)] : List (ℕ × ℕ)), e.1 < 1 ∧ e.2 < 1) ∧
    (⟨⟨[[1]], [0]⟩, ⟨[[1]], [0]⟩, id, 0⟩ : GeneralGraphLayer).forward
        [[1]] [[2]] [(0, 0)] = Except.error (PyError.attributeError ("U")) :=
  ⟨by decide, forward_fusion_raises_attributeError _ _ _ _ (by decide)⟩

/-- C3: for every node count `N`, every list of (target-index, message)
    pairs with in-range indices and message width `C`, `aggregate` returns a
    matrix of shape (N, C), and permuting the edge list leaves the output
    identical (sum aggregation is order-invariant). -/
theorem aggregate_shape_and_perm_invariant (self : GeneralGraphLayer)
    (N C : ℕ) (p₁ p₂ : List (ℕ × List ℚ)) (hperm : p₁.Perm p₂)
    (hidx : ∀ pr ∈ p₁, pr.1 < N) (hwid : ∀ pr ∈ p₁, pr.2.length = C) :
    (self.aggregate (p₁.map Prod.snd) (p₁.map Prod.fst) N C).length = N ∧
    (∀ row ∈ self.aggregate (p₁.map Prod.snd) (p₁.map Prod.fst) N C,
      row.length = C) ∧
    self.aggregate (p₁.map Prod.snd) (p₁.map Prod.fst) N C =
      self.aggregate (p₂.map Prod.snd) (p₂.map Prod.fst) N C := by
  have hz₁ : (p₁.map Prod.fst).zip (p₁.map Prod.snd) = p₁ :=
    (List.zip_of_prod rfl rfl).symm
  have hz₂ : (p₂.map Prod.fst).zip (p₂.map Prod.snd) = p₂ :=
    (List.zip_of_prod rfl rfl).symm
  refine ⟨by simp [GeneralGraphLayer.aggregate, scatter], ?_, ?_⟩
  · intro row hrow
    simp only [GeneralGraphLayer.aggregate, scatter, hz₁, List.mem_map]
      at hrow
    obtain ⟨t, _ht, rfl⟩ := hrow
    exact scatterRow_length p₁ t hwid
  · simp only [GeneralGraphLayer.aggregate, scatter, hz₁, hz₂]
    exact congrArg (fun f => List.map f (List.range N))
      (funext fun t => scatterRow_perm hperm C t)

/-- Witness for C3: two edges delivered in both orders to a 2-node graph. -/
theorem aggregate_shape_and_perm_invariant_witness :
    ([((0 : ℕ), [(1 : ℚ), 2]), (1, [3, 4])] :
        List (ℕ × List ℚ)).Perm [(1, [3, 4]), (0, [1, 2])] ∧
    (∀ pr ∈ ([((0 : ℕ), [(1 : ℚ), 2]), (1, [3, 4])] : List (ℕ × List ℚ)),
      pr.1 < 2) ∧
    (∀ pr ∈ ([((0 : ℕ), [(1 : ℚ), 2]), (1, [3, 4])] : List (ℕ × List ℚ)),
      pr.2.length = 2) ∧
    ((⟨⟨[[1]], [0]⟩, ⟨[[1]], [0]⟩, id, 0⟩ : GeneralGraphLayer).aggregate
        (([((0 : ℕ), [(1 : ℚ), 2]), (1, [3, 4])] :
          List (ℕ × List ℚ)).map Prod.snd)
        (([((0 : ℕ), [(1 : ℚ), 2]), (1, [3, 4])] :
          List (ℕ × List ℚ)).map Prod.fst) 2 2).length = 2 ∧
    (∀ row ∈ (⟨⟨[[1]], [0]⟩, ⟨[[1]], [0]⟩, id, 0⟩ :
          GeneralGraphLayer).aggregate
        (([((0 : ℕ), [(1 : ℚ), 2]), (1, [3, 4])] :
          List (ℕ × List ℚ)).map Prod.snd)
        (([((0 : ℕ), [(1 : ℚ), 2]), (1, [3, 4])] :
          List (ℕ × List ℚ)).map Prod.fst) 2 2, row.length = 2) ∧
    (⟨⟨[[1]], [0]⟩, ⟨[[1]], [0]⟩, id, 0⟩ : GeneralGraphLayer).aggregate
        (([((0 : ℕ), [(1 : ℚ), 2]), (1, [3, 4])] :
          List (ℕ × List ℚ)).map Prod.snd)
        (([((0 : ℕ), [(1 : ℚ), 2]), (1, [3, 4])] :
          List (ℕ × List ℚ)).map Prod.fst) 2 2 =
      (⟨⟨[[1]], [0]⟩, ⟨[[1]], [0]⟩, id, 0⟩ : GeneralGraphLayer).aggregate
        (([((1 : ℕ), [(3 : ℚ), 4]), (0, [1, 2])] :
          List (ℕ × List ℚ)).map Prod.snd)
        (([((1 : ℕ), [(3 : ℚ), 4]), (0, [1, 2])] :
          List (ℕ × List ℚ)).map Prod.fst) 2 2 := by
  have hperm : ([((0 : ℕ), [(1 : ℚ), 2]), (1, [3, 4])] :
      List (ℕ × List ℚ)).Perm [(1, [3, 4]), (0, [1, 2])] :=
    List.Perm.swap _ _ _
  have h := aggregate_shape_and_perm_invariant
    ⟨⟨[[1]], [0]⟩, ⟨[[1]], [0]⟩, id, 0⟩ 2 2 _ _ hperm
    (by decide) (by decide)
  exact ⟨hperm, by decide, by decide, h.1, h.2.1, h.2.2⟩

/-- C4: a node that is the target of no edge receives the all-zero vector of
    length `C` from the aggregation. -/
theorem aggregate_isolated_node_zero (self : GeneralGraphLayer)
    (inputs : Mat) (index : List ℕ) (N C t : ℕ) (ht : t < N)
    (hnot : t ∉ index) :
    (self.aggregate inputs index N C)[t]? = some (List.replicate C 0) := by
  have hfil : (index.zip inputs).filter (fun pr => pr.1 == t) = [] := by
    apply List.filter_eq_nil_iff.mpr
    intro pr hpr
    obtain ⟨a, b⟩ := pr
    have hm := List.of_mem_zip hpr
    simp only [beq_iff_eq]
    exact fun he => hnot (he ▸ hm.1)
  simp [GeneralGraphLayer.aggregate, scatter, List.getElem?_map,
    List.getElem?_range ht, scatterRow, hfil]

/-- Witness for C4: node 0 of a 2-node graph whose only edge targets node 1. -/
theorem aggregate_isolated_node_zero_witness :
    (0 : ℕ) < 2 ∧ (0 : ℕ) ∉ ([1] : List ℕ) ∧
    ((⟨⟨[[1]], [0]⟩, ⟨[[1]], [0]⟩, id, 0⟩ : GeneralGraphLayer).aggregate
        [[5, 6]] [1] 2 2)[0]? = some (List.replicate 2 0) :=
  ⟨by decide, by decide,
    aggregate_isolated_node_zero _ _ _ _ _ _ (by decide) (by decide)⟩

/-- C5: the model's step never returns the pair (layer output, head of layer
    output): the delegated layer step raises `AttributeError` on the absent
    attribute `U`, and the exception propagates out of the model's step
    (moreover the model's constructor itself always raises, see
    `constructors_always_raise`). -/
theorem model_step_raises_attributeError (self : RecurrentGraphNeuralNet)
    (x u : Mat) (edge_index : List (ℕ × ℕ))
    (hE : ∀ e ∈ edge_index, e.1 < x.length ∧ e.2 < x.length) :
    self.forward x u edge_index =
      Except.error (PyError.attributeError ("U")) :=
  rfl

/-- Witness for C5 at a concrete in-range input. -/
theorem model_step_raises_attributeError_witness :
    (∀ e ∈ ([(0, 0)] : List (ℕ × ℕ)), e.1 < 1 ∧ e.2 < 1) ∧
    (⟨⟨⟨[[1]], [0]⟩, ⟨[[1]], [0]⟩, id, 0⟩, ⟨[[1]], [0]⟩⟩ :
        RecurrentGraphNeuralNet).forward [[1]] [[2]] [(0, 0)] =
      Except.error (PyError.attributeError ("U")) :=
  ⟨by decide, model_step_raises_attributeError _ _ _ _ (by decide)⟩

/-- C6: two consecutive step calls with different inputs and no intervening
    reset read numerically identical weight matrices, and a step call leaves
    the owned parameter state (layer `W`, layer `phi`, prediction head)
    unchanged; the second call's outcome depends only on its own explicit
    inputs — the model is stateless apart from the caller-threaded hidden
    state.  (In the embedding `u` and `edge_index` are immutable values; the
    source contains no in-place tensor operation on them.) -/
theorem step_stateless_tied_weights (m : RecurrentGraphNeuralNet)
    (x₁ u₁ x₂ u₂ : Mat) (e₁ e₂ : List (ℕ × ℕ)) :
    (m.forwardS x₁ u₁ e₁).1 = m ∧
    ((m.forwardS x₁ u₁ e₁).1.forwardS x₂ u₂ e₂).1 = m ∧
    ((m.forwardS x₁ u₁ e₁).1).graph_layer.W = m.graph_layer.W ∧
    ((m.forwardS x₁ u₁ e₁).1).graph_layer.phi = m.graph_layer.phi ∧
    ((m.forwardS x₁ u₁ e₁).1).prediction_head = m.prediction_head ∧
    ((m.forwardS x₁ u₁ e₁).1.forwardS x₂ u₂ e₂).2 =
      (m.forwardS x₂ u₂ e₂).2 :=
  ⟨rfl, rfl, rfl, rfl, rfl, rfl⟩

/-- C7: the adapter's step equals the spec-side description (pure extraction
    of the three named fields, forwarded to the wrapped model), in
    particular on the batch with embedding [[1,1]], feature [[2,2]] and an
    empty edge list. -/
theorem wrapper_forward_eq_adapterStepSpec (w : DeepSnapWrapper)
    (batch : Batch) :
    w.forward batch = adapterStepSpec w.model batch ∧
    w.forward ⟨[[1, 1]], [[2, 2]], []⟩ = w.model [[1, 1]] [[2, 2]] [] :=
  ⟨rfl, rfl⟩

/-- C8: the layer's reset operation never completes (let alone permits a
    following step): its first statement reads `self.phi.weights`, but
    `nn.Linear` names the parameter `weight`, so reset raises
    `AttributeError` for every layer state. -/
theorem reset_parameters_raises_attributeError (self : GeneralGraphLayer) :
    self.reset_parameters = Except.error (PyError.attributeError ("weights")) :=
  rfl

/-- C9 counterexample: requesting a layer output width of 5 against a hidden
    width of 2 does make construction fail, but not with a
    `ConfigurationError` (no such check exists in the code; the duplicated
    `out_channels` keyword raises `TypeError`). -/
theorem init_mismatch_not_configurationError :
    RecurrentGraphNeuralNet.init 2 2 2 (some 5) =
      Except.error
        (PyError.typeError ("multiple values for keyword argument out_channels")) ∧
    raisesConfigurationError (RecurrentGraphNeuralNet.init 2 2 2 (some 5)) =
      false :=
  ⟨rfl, rfl⟩

/-- C9 amended: constructing the model while requesting a layer output
    width different from the hidden width fails at construction time,
    before any forward call, with a `TypeError` from the duplicated
    `out_channels` keyword (the body hardwires
    `out_channels = hidden_channels`), not with a `ConfigurationError`. -/
theorem init_mismatch_fails_with_typeError (n h p c : ℕ) (hc : c ≠ h) :
    RecurrentGraphNeuralNet.init n h p (some c) =
      Except.error
        (PyError.typeError ("multiple values for keyword argument out_channels")) :=
  rfl

/-- Witness for the amended C9 at a concrete mismatch (5 versus 2). -/
theorem init_mismatch_fails_with_typeError_witness :
    (5 : ℕ) ≠ 2 ∧
    RecurrentGraphNeuralNet.init 2 2 2 (some 5) =
      Except.error
        (PyError.typeError ("multiple values for keyword argument out_channels")) :=
  ⟨by decide, init_mismatch_fails_with_typeError 2 2 2 5 (by decide)⟩

/-- C10: for every choice of constructor arguments, the constructors of
    `RecurrentGraphNeuralNet` and of `DeepSnapWrapper` raise before
    returning an instance: both assign sub-module attributes without having
    invoked `torch.nn.Module.__init__`. -/
theorem constructors_always_raise (n h p : ℕ) (kw : Option ℕ)
    (model : Mat → Mat → List (ℕ × ℕ) → Except PyError (Mat × Mat)) :
    (∃ e, RecurrentGraphNeuralNet.init n h p kw = Except.error e) ∧
    (∃ e, DeepSnapWrapper.init model = Except.error e) := by
  constructor
  · cases kw with
    | none => exact ⟨_, rfl⟩
    | some c => exact ⟨_, rfl⟩
  · exact ⟨_, rfl⟩
